import Mathlib

/-!
Verification of the Playbook3D Houdini plugin's render-submission protocol
layer, shallowly embedded in Lean 4.

Sources embedded here:
* houdini/scripts/playbook_utils/network.py — slider normalization
  (np_clamp), the workflow-id lookup table (ComfyDeployClient.get_workflow_id),
  the request assembly in ComfyDeployClient.run_workflow, and the
  websocket result listener (PlaybookWebsocket.websocket_message);
* houdini/python3.11libs/playbook_utils/authentication.py — decode_jwt,
  get_user_info, validate_api_key;
* houdini/python3.11libs/playbook_utils/hda_utils.py — upload_render_passes.

Conventions: Python floats are modelled as exact rationals (ℚ); byte strings
are lists of naturals (each < 256); Python exceptions are modelled with
Except/Option; calls to external services (HTTP, secret store, the JSON and
UTF-8 codecs of the standard library) are oracles supplied as explicit
environment records, and the network calls a function issues are returned as
an explicit trace list.
-/

namespace Playbook

/-! ### Slider normalization (network.py, np_clamp)

Python: `np.interp(n, [0, 100], [smallest, largest])`.  numpy's interp maps
the domain [0, 100] linearly onto [smallest, largest] and clamps inputs
outside the domain to the nearest endpoint. -/

def np_clamp (n smallest largest : ℚ) : ℚ :=
  if n ≤ 0 then smallest
  else if 100 ≤ n then largest
  else smallest + n * (largest - smallest) / 100

/-! ### Workflow-id encoding (network.py, ComfyDeployClient.get_workflow_id)

The Python builds the key string f-string style from the three enum
ordinals and looks it up in a literal dict; an absent key falls back to 0. -/

def workflow_ids : List (String × Nat) :=
  [("0_0_0", 0), ("0_0_1", 1), ("0_0_2", 2),
   ("0_1_0", 3), ("0_1_1", 4), ("0_1_2", 5),
   ("1_0_0", 6), ("1_0_1", 7), ("1_0_2", 8),
   ("1_1_0", 9), ("1_1_1", 10), ("1_1_2", 11)]

def workflowKey (workflow base_model style : Nat) : String :=
  toString workflow ++ "_" ++ toString base_model ++ "_" ++ toString style

def get_workflow_id (workflow base_model style : Nat) : Nat :=
  match workflow_ids.lookup (workflowKey workflow base_model style) with
  | some v => v
  | none => 0

/-! ### Request assembly (network.py, ComfyDeployClient.run_workflow)

The client holds five image buffers (Python bytes, modelled as lists of
naturals).  run_workflow only proceeds when the mask, depth and outline
buffers are all truthy (non-empty); it then computes the clamped strengths,
resolves the workflow id through the three module-level dicts (a missing
dict key raises KeyError), and dispatches on the workflow ordinal to build
either the generative-retexture or the style-transfer multipart request.
Falling out of the guard, or hitting the match wildcard, returns None. -/

inductive PyError where
  | keyError
  | indexError
  | typeError
  | attributeError
  | unicodeDecodeError
  | binasciiError
deriving DecidableEq

def workflow_dict : List (String × Nat) :=
  [("RETEXTURE", 0), ("STYLETRANSFER", 1)]

def base_model_dict : List (String × Nat) :=
  [("STABLE", 0), ("FLUX", 1)]

def style_dict : List (String × Nat) :=
  [("PHOTOREAL", 0), ("3DCARTOON", 1), ("ANIME", 2)]

/-- properties.py: prompt_placeholders dict; run_workflow compares each mask
prompt with the "Mask" entry. -/
def prompt_placeholders : List (String × String) :=
  [("Email", "Email"), ("API_Key", "API key"),
   ("Retexture", "Describe the scene..."),
   ("Mask", "Describe masked objects...")]

def mask_placeholder : String :=
  (prompt_placeholders.lookup "Mask").getD ""

structure GlobalRenderSettings where
  workflow : String
  base_model : String
  style : String
  render_mode : Int

structure MaskData where
  mask_prompt : String
  color : String

structure RetextureRenderSettings where
  prompt : String
  structure_strength : ℚ
  mask1 : MaskData
  mask2 : MaskData
  mask3 : MaskData
  mask4 : MaskData
  mask5 : MaskData
  mask6 : MaskData
  mask7 : MaskData

structure StyleTransferRenderSettings where
  prompt : String
  style_transfer_strength : ℚ

/-- The mutable buffers of ComfyDeployClient (Python bytes as byte lists). -/
structure ComfyDeployClient where
  mask : List Nat
  depth : List Nat
  outline : List Nat
  beauty : List Nat
  style_transfer : List Nat

/-- The data dict posted to /generative-retexture (field per dict key). -/
structure RetextureRenderInput where
  is_blender_plugin : Nat
  workflow_id : Nat
  width : Nat
  height : Nat
  scene_prompt : String
  structure_strength_depth : ℚ
  structure_strength_outline : ℚ
  mask_prompt_1 : String
  mask_prompt_2 : String
  mask_prompt_3 : String
  mask_prompt_4 : String
  mask_prompt_5 : String
  mask_prompt_6 : String
  mask_prompt_7 : String

/-- The files dict posted to /generative-retexture (buffers utf-8 decoded). -/
structure RetextureFiles where
  mask : String
  depth : String
  outline : String

/-- The data dict posted to /style-transfer; the four buffer fields carry the
raw bytes (the Python puts the undecoded bytes into the data dict). -/
structure StyleTransferRenderInput where
  is_blender_plugin : Nat
  workflow_id : Nat
  width : Nat
  height : Nat
  style_transfer_strength : ℚ
  structure_strength_depth : ℚ
  structure_strength_outline : ℚ
  scene_prompt : String
  beauty : List Nat
  depth : List Nat
  outline : List Nat
  style_transfer_image : List Nat

/-- The files dict posted to /style-transfer (buffers utf-8 decoded). -/
structure StyleTransferFiles where
  beauty : String
  depth : String
  outline : String
  style_transfer_image : String

/-- The observable outcome of run_workflow when it returns without raising:
the POST it issued (with the body it built), or no POST at all. -/
inductive RunAction where
  | postRetexture (input : RetextureRenderInput) (files : RetextureFiles)
  | postStyleTransfer (input : StyleTransferRenderInput) (files : StyleTransferFiles)

/-- substitute a mask prompt equal to the UI placeholder by the empty
string (the conditional expressions of the render_input literal). -/
def substPlaceholder (p : String) : String :=
  if p ≠ mask_placeholder then p else ""

/-- run_workflow.  utf8Decode is the oracle for Python bytes.decode("utf-8")
(none models UnicodeDecodeError, which run_workflow does not catch).
.ok none models the Python returning None: either the buffer guard failed
or the match wildcard branch logged and fell through. -/
def run_workflow (utf8Decode : List Nat → Option String)
    (client : ComfyDeployClient) (global_settings : GlobalRenderSettings)
    (retexture_settings : RetextureRenderSettings)
    (style_transfer_settings : StyleTransferRenderSettings) :
    Except PyError (Option RunAction) :=
  if client.mask ≠ [] ∧ client.depth ≠ [] ∧ client.outline ≠ [] then
    let clamped_retexture_depth :=
      np_clamp retexture_settings.structure_strength (6/10) 1
    let clamped_retexture_outline :=
      np_clamp retexture_settings.structure_strength (1/10) (3/10)
    let clamped_style_transfer_depth :=
      np_clamp style_transfer_settings.style_transfer_strength (6/10) 1
    let clamped_style_transfer_outline :=
      np_clamp style_transfer_settings.style_transfer_strength (1/10) (3/10)
    let clamped_style_transfer_strength :=
      np_clamp style_transfer_settings.style_transfer_strength 0 1
    match workflow_dict.lookup global_settings.workflow,
          base_model_dict.lookup global_settings.base_model,
          style_dict.lookup global_settings.style with
    | some w, some b, some s =>
      let workflow_id := get_workflow_id w b s
      match w with
      | 0 =>
        match utf8Decode client.mask, utf8Decode client.depth,
              utf8Decode client.outline with
        | some fm, some fd, some fo =>
          .ok (some (.postRetexture
            { is_blender_plugin := 1
              workflow_id := workflow_id
              width := 768
              height := 768
              scene_prompt := retexture_settings.prompt
              structure_strength_depth := clamped_retexture_depth
              structure_strength_outline := clamped_retexture_outline
              mask_prompt_1 := substPlaceholder retexture_settings.mask1.mask_prompt
              mask_prompt_2 := substPlaceholder retexture_settings.mask2.mask_prompt
              mask_prompt_3 := substPlaceholder retexture_settings.mask3.mask_prompt
              mask_prompt_4 := substPlaceholder retexture_settings.mask4.mask_prompt
              mask_prompt_5 := substPlaceholder retexture_settings.mask5.mask_prompt
              mask_prompt_6 := substPlaceholder retexture_settings.mask6.mask_prompt
              mask_prompt_7 := substPlaceholder retexture_settings.mask7.mask_prompt }
            { mask := fm, depth := fd, outline := fo }))
        | _, _, _ => .error .unicodeDecodeError
      | 1 =>
        match utf8Decode client.beauty, utf8Decode client.depth,
              utf8Decode client.outline, utf8Decode client.style_transfer with
        | some fb, some fd, some fo, some fs =>
          .ok (some (.postStyleTransfer
            { is_blender_plugin := 1
              workflow_id := workflow_id
              width := 768
              height := 768
              style_transfer_strength := clamped_style_transfer_strength
              structure_strength_depth := clamped_style_transfer_depth
              structure_strength_outline := clamped_style_transfer_outline
              scene_prompt := style_transfer_settings.prompt
              beauty := client.beauty
              depth := client.depth
              outline := client.outline
              style_transfer_image := client.style_transfer }
            { beauty := fb, depth := fd, outline := fo, style_transfer_image := fs }))
        | _, _, _, _ => .error .unicodeDecodeError
      | _ => .ok none
    | _, _, _ => .error .keyError
  else
    .ok none

/-! ### JWT payload decoding (authentication.py, decode_jwt)

decode_jwt splits the token on '.', takes the middle segment, rewrites the
URL-safe alphabet back to the standard one, appends "=" * (4 - len % 4)
padding and calls base64.b64decode; the result is then utf-8 decoded.  Note
the Python quirk: a segment length divisible by 4 receives four padding
characters, which binascii's non-strict mode tolerates as excess padding. -/

/-- Value of a character of the standard base64 alphabet. -/
def b64CharVal (c : Char) : Option Nat :=
  if 'A' ≤ c ∧ c ≤ 'Z' then some (c.toNat - 'A'.toNat)
  else if 'a' ≤ c ∧ c ≤ 'z' then some (c.toNat - 'a'.toNat + 26)
  else if '0' ≤ c ∧ c ≤ '9' then some (c.toNat - '0'.toNat + 52)
  else if c = '+' then some 62
  else if c = '/' then some 63
  else none

/-- Reassemble bytes from 6-bit groups: four sextets give three bytes, a
final group of three gives two, of two gives one, and a leftover single
sextet is a decoding error. -/
def sextetsToBytes : List Nat → Option (List Nat)
  | [] => some []
  | [_] => none
  | [s0, s1] => some [s0 * 4 + s1 / 16]
  | [s0, s1, s2] => some [s0 * 4 + s1 / 16, s1 % 16 * 16 + s2 / 4]
  | s0 :: s1 :: s2 :: s3 :: rest =>
    match sextetsToBytes rest with
    | none => none
    | some bs =>
      some ((s0 * 4 + s1 / 16) :: (s1 % 16 * 16 + s2 / 4) :: (s2 % 4 * 64 + s3) :: bs)

/-- Model of base64.b64decode (binascii.a2b_base64, non-strict mode) on the
inputs decode_jwt builds: data characters followed by trailing padding.
Characters from the first '=' on are padding; non-alphabet data characters
are discarded (the non-strict leniency, which also tolerates the excess
padding decode_jwt can append); a leftover single sextet is an error. -/
def b64decode (cs : List Char) : Option (List Nat) :=
  sextetsToBytes ((cs.takeWhile (fun c => c ≠ '=')).filterMap b64CharVal)

/-- The two str.replace calls restoring the standard alphabet. -/
def urlCharToStd (c : Char) : Char :=
  if c = '-' then '+' else if c = '_' then '/' else c

/-- Python str.split("."). -/
def splitOnDot : List Char → List (List Char)
  | [] => [[]]
  | c :: rest =>
    if c = '.' then [] :: splitOnDot rest
    else
      match splitOnDot rest with
      | [] => [[c]]
      | s :: ss => (c :: s) :: ss

/-- decode_jwt up to and including base64.b64decode, producing the decoded
payload bytes; token.split(".")[1] raises IndexError when there is no
second segment, and a decode failure raises binascii.Error.  The final
bytes.decode("utf-8") of the Python is applied separately by callers. -/
def decode_jwt_bytes (token : List Char) : Except PyError (List Nat) :=
  match (splitOnDot token)[1]? with
  | none => .error .indexError
  | some base64_url =>
    match b64decode (base64_url.map urlCharToStd
        ++ List.replicate (4 - (base64_url.map urlCharToStd).length % 4) '=') with
    | none => .error .binasciiError
    | some bs => .ok bs

/-! ### Authentication (authentication.py, get_user_info / validate_api_key)

get_user_info runs entirely inside one try/except returning None on any
exception.  External collaborators — the AWS secret store, the HTTP layer,
and the stdlib utf-8/JSON codecs — are oracles in an environment record;
the list of HTTP requests issued is returned alongside the result. -/

structure AuthSecrets where
  alias_url : Option String
  user_url : Option String
  x_api_key : Option String

structure AuthHttpResp where
  status : Nat
  access_token : Option String
  email : Option String
  users_tier_credits : Option Int

structure AuthEnv where
  secrets : Option AuthSecrets
  http : String → AuthHttpResp
  utf8Decode : List Nat → Option String
  json_username : String → Option String

inductive NetCall where
  | get (url : String)
deriving DecidableEq

structure UserInfo where
  email : String
  credits : Int
deriving DecidableEq

/-- get_user_info: secrets fetch (an exception yields None with no HTTP
call), truthiness check of the three configuration values, token request,
JWT payload decode, username extraction, profile request, field
extraction.  Every failure path returns none; the trace records the GETs
issued up to that point. -/
def get_user_info (env : AuthEnv) (api_key : String) :
    Option UserInfo × List NetCall :=
  match env.secrets with
  | none => (none, [])
  | some s =>
    match s.alias_url, s.user_url, s.x_api_key with
    | some alias_url, some user_url, some x_api_key =>
      if alias_url = "" ∨ user_url = "" ∨ x_api_key = "" then (none, [])
      else
        if (env.http (alias_url ++ api_key)).status ≠ 200 then
          (none, [.get (alias_url ++ api_key)])
        else
          match (env.http (alias_url ++ api_key)).access_token with
          | none => (none, [.get (alias_url ++ api_key)])
          | some access_token =>
            match decode_jwt_bytes access_token.data with
            | .error _ => (none, [.get (alias_url ++ api_key)])
            | .ok payload =>
              match env.utf8Decode payload with
              | none => (none, [.get (alias_url ++ api_key)])
              | some decoded =>
                match env.json_username decoded with
                | none => (none, [.get (alias_url ++ api_key)])
                | some username =>
                  if (env.http (user_url.replace "*" username)).status ≠ 200 then
                    (none, [.get (alias_url ++ api_key),
                            .get (user_url.replace "*" username)])
                  else
                    match (env.http (user_url.replace "*" username)).email,
                          (env.http (user_url.replace "*" username)).users_tier_credits with
                    | some e, some c =>
                      (some ⟨e, c⟩, [.get (alias_url ++ api_key),
                                     .get (user_url.replace "*" username)])
                    | _, _ => (none, [.get (alias_url ++ api_key),
                                      .get (user_url.replace "*" username)])
    | _, _, _ => (none, [])

/-- validate_api_key: `if not api_key or len(api_key) != 36: return False`,
otherwise the boolean success of get_user_info (and its network calls). -/
def validate_api_key (env : AuthEnv) (api_key : String) : Bool × List NetCall :=
  if api_key = "" ∨ api_key.length ≠ 36 then (false, [])
  else
    ((get_user_info env api_key).1.isSome, (get_user_info env api_key).2)

/-- A concrete authentication environment: secrets present and truthy,
every HTTP request answered with status 500 and no fields, codecs failing. -/
def authTestEnv : AuthEnv :=
  { secrets := some { alias_url := some "A", user_url := some "U", x_api_key := some "K" }
    http := fun _ => { status := 500, access_token := none, email := none,
                       users_tier_credits := none }
    utf8Decode := fun _ => none
    json_username := fun _ => none }

/-! ### Render-pass upload (hda_utils.py, upload_render_passes)

The function first reads the team and workflow parameters and raises before
any network activity when either still holds the "select" sentinel; it then
calls get_user_token (one network exchange, modelled as an oracle together
with its trace entry) and loops over the images.  Each iteration sits in a
try/except that catches any failure — upload-URL request, PUT, or
download-URL request — logs it and continues with the next image, so a
failing pass is merely omitted from the accumulated download_urls.  When the
loop finishes with an empty list the function raises; otherwise it returns
the collected URLs in order. -/

inductive UploadError where
  | selectionRequired
  | tokenFailed
  | allUploadsFailed
deriving DecidableEq

inductive UploadCall where
  | tokenRequest
  | getUploadUrl
  | putImage (url : String)
  | getDownloadUrl
deriving DecidableEq

/-- The responses the backend gives to the three requests one loop
iteration makes (status codes, and the save_result JSON field of the two
URL requests; a missing field raises KeyError, caught by the per-pass
handler). -/
structure PassResp where
  uploadStatus : Nat
  uploadSaveResult : Option String
  putStatus : Nat
  downloadStatus : Nat
  downloadSaveResult : Option String

structure UploadEnv where
  selected_team : String
  selected_workflow : String
  tokenResult : Option String
  resp : Nat → PassResp

/-- One iteration of the upload loop for the pass at position i: the
download URL on success, none when any of the three steps failed, together
with the network calls issued before the failure. -/
def process_pass (env : UploadEnv) (i : Nat) : Option String × List UploadCall :=
  if (env.resp i).uploadStatus ≠ 200 then (none, [.getUploadUrl])
  else
    match (env.resp i).uploadSaveResult with
    | none => (none, [.getUploadUrl])
    | some result_url =>
      if (env.resp i).putStatus ≠ 200 then (none, [.getUploadUrl, .putImage result_url])
      else if (env.resp i).downloadStatus ≠ 200 then
        (none, [.getUploadUrl, .putImage result_url, .getDownloadUrl])
      else
        match (env.resp i).downloadSaveResult with
        | none => (none, [.getUploadUrl, .putImage result_url, .getDownloadUrl])
        | some download_url =>
          (some download_url, [.getUploadUrl, .putImage result_url, .getDownloadUrl])

/-- The for-loop of upload_render_passes from pass index i on: accumulated
download_urls of the successful passes in order, and the concatenated call
trace (every pass is processed regardless of earlier failures). -/
def upload_loop (env : UploadEnv) : Nat → List String → List String × List UploadCall
  | _, [] => ([], [])
  | i, _ :: rest =>
    match (process_pass env i).1 with
    | some url => (url :: (upload_loop env (i + 1) rest).1,
                   (process_pass env i).2 ++ (upload_loop env (i + 1) rest).2)
    | none => ((upload_loop env (i + 1) rest).1,
               (process_pass env i).2 ++ (upload_loop env (i + 1) rest).2)

def upload_render_passes (env : UploadEnv) (image_data : List String) :
    Except UploadError (List String) × List UploadCall :=
  if env.selected_team = "select" ∨ env.selected_workflow = "select" then
    (.error .selectionRequired, [])
  else
    match env.tokenResult with
    | none => (.error .tokenFailed, [.tokenRequest])
    | some _ =>
      if (upload_loop env 0 image_data).1 = [] then
        (.error .allUploadsFailed, .tokenRequest :: (upload_loop env 0 image_data).2)
      else
        (.ok (upload_loop env 0 image_data).1,
         .tokenRequest :: (upload_loop env 0 image_data).2)

/-- A concrete upload environment for the three-pass scenario: the second
pass's upload-URL request returns HTTP 500, the others succeed with
distinct download URLs. -/
def uploadTestEnv : UploadEnv :=
  { selected_team := "team1"
    selected_workflow := "wf1"
    tokenResult := some "tok"
    resp := fun i =>
      if i = 1 then
        { uploadStatus := 500, uploadSaveResult := none, putStatus := 200,
          downloadStatus := 200, downloadSaveResult := none }
      else
        { uploadStatus := 200, uploadSaveResult := some "up", putStatus := 200,
          downloadStatus := 200,
          downloadSaveResult := some (String.append "down" (toString i)) } }

/-! ### Result listener (network.py, PlaybookWebsocket.websocket_message)

The listener loops over inbound messages.  Each message is json.loads-ed
inside an inner try that catches only JSONDecodeError (malformed messages
are printed and skipped).  When the parsed object's status equals
"success", the handler executes

  extracted_data = data.get["data"]
  image_url = extracted_data.outputs[0].data.images[0].url

`data.get` is the bound dict method, so subscripting it raises TypeError
(and attribute access like `.outputs` on the plain dicts/lists produced by
json.loads would raise AttributeError).  Neither is a JSONDecodeError, so
the exception escapes to the outer handler, which prints and leaves the
coroutine, returning None.  Python values produced by json.loads are
modelled by PyVal; an inbound message is given as the result of json.loads
(none = the message was not valid JSON). -/

inductive PyVal where
  | str (s : String)
  | int (n : Int)
  | dict (entries : List (String × PyVal))
  | list (xs : List PyVal)
  | boundMethodGet (self : List (String × PyVal))

/-- Python attribute access on json.loads values: a dict exposes its .get
method; no other attribute used here exists on dicts, lists, strings or
ints (AttributeError). -/
def pyAttr (v : PyVal) (name : String) : Except PyError PyVal :=
  match v with
  | .dict es => if name = "get" then .ok (.boundMethodGet es) else .error .attributeError
  | _ => .error .attributeError

/-- Python subscription: dict[str] (KeyError when absent), list[int]
(IndexError out of range); subscripting a bound method — or anything
else — raises TypeError. -/
def pySubscript (v : PyVal) (idx : PyVal) : Except PyError PyVal :=
  match v, idx with
  | .dict es, .str k =>
    match es.lookup k with
    | some x => .ok x
    | none => .error .keyError
  | .list xs, .int n =>
    if h : 0 ≤ n ∧ n.toNat < xs.length then .ok (xs.get ⟨n.toNat, h.2⟩)
    else .error .indexError
  | .boundMethodGet _, _ => .error .typeError
  | _, _ => .error .typeError

/-- The body of the status == "success" branch, statement by statement. -/
def success_branch (data : List (String × PyVal)) : Except PyError PyVal := do
  let g ← pyAttr (.dict data) "get"
  let extracted_data ← pySubscript g (.str "data")
  let outputs ← pyAttr extracted_data "outputs"
  let o0 ← pySubscript outputs (.int 0)
  let d ← pyAttr o0 "data"
  let images ← pyAttr d "images"
  let i0 ← pySubscript images (.int 0)
  pyAttr i0 "url"

/-- The test data.get("status") == "success": true exactly when the
"status" key is present and holds that string. -/
def isSuccessStatus (es : List (String × PyVal)) : Bool :=
  match es.lookup "status" with
  | some (.str s) => s = "success"
  | _ => false

/-- websocket_message over the sequence of inbound messages (each given as
its json.loads result; none = JSONDecodeError, caught and skipped).  A
non-dict parsed message makes data.get raise AttributeError, and any
exception of the success branch escapes the inner try: both are caught by
the outer handler, which returns None.  Exhausting the sequence models the
connection failing, also caught by the outer handler. -/
def websocket_message : List (Option PyVal) → Option PyVal
  | [] => none
  | none :: rest => websocket_message rest
  | some data :: rest =>
    match data with
    | .dict es =>
      if isSuccessStatus es then
        match success_branch es with
        | .ok v => some v
        | .error _ => none
      else
        websocket_message rest
    | _ => none

/-- The well-formed terminal message of the result-stream scenario. -/
def successMsg : PyVal :=
  .dict [("status", .str "success"),
         ("data", .dict [("outputs", .list [
            .dict [("data", .dict [("images", .list [
              .dict [("url", .str "https://x/y.png")]])])]])])]

/-! ### Base64url round-trip (C4 support)

The spec's token producer emits the payload segment as unpadded URL-safe
base64 of the serialized JSON object.  bytesToSextets/b64urlChar model that
encoder; decode_jwt_bytes is the repository's decoder.  The round-trip is
proved at the byte level: recovering the exact payload bytes means the
subsequent utf-8 decode and json.loads reproduce the original JSON value. -/

/-- The URL-safe base64 alphabet (RFC 4648 §5). -/
def b64urlChar (v : Nat) : Char :=
  if v < 26 then Char.ofNat ('A'.toNat + v)
  else if v < 52 then Char.ofNat ('a'.toNat + v - 26)
  else if v < 62 then Char.ofNat ('0'.toNat + v - 52)
  else if v = 62 then '-' else '_'

/-- Split bytes into 6-bit groups: three bytes give four sextets, a final
pair gives three, a final single byte gives two. -/
def bytesToSextets : List Nat → List Nat
  | [] => []
  | [b0] => [b0 / 4, b0 % 4 * 16]
  | [b0, b1] => [b0 / 4, b0 % 4 * 16 + b1 / 16, b1 % 16 * 4]
  | b0 :: b1 :: b2 :: rest =>
    b0 / 4 :: (b0 % 4 * 16 + b1 / 16) :: (b1 % 16 * 4 + b2 / 64) :: b2 % 64
      :: bytesToSextets rest

/-- Unpadded URL-safe base64 encoding of a byte sequence. -/
def b64urlEncode (bs : List Nat) : List Char :=
  (bytesToSextets bs).map b64urlChar

/-- The utf-8 bytes of the serialized JSON object with the single field
username holding the string alice (braces, quotes, colon and the letters,
byte by byte). -/
def aliceJsonBytes : List Nat :=
  [123, 34, 117, 115, 101, 114, 110, 97, 109, 101, 34, 58,
   34, 97, 108, 105, 99, 101, 34, 125]

/-- Closed form of np_clamp: interpolation applied to the input clamped
into [0, 100]. -/
lemma np_clamp_eq (n a b : ℚ) :
    np_clamp n a b = a + (max 0 (min 100 n)) * (b - a) / 100 := by
  unfold np_clamp
  rcases le_or_lt n 0 with h0 | h0
  · rw [if_pos h0]
    have : max 0 (min 100 n) = 0 := by
      rw [max_eq_left]
      exact le_trans (min_le_right _ _) h0
    rw [this]; ring
  · rw [if_neg (not_le.mpr h0)]
    rcases le_or_lt 100 n with h1 | h1
    · rw [if_pos h1]
      have : max 0 (min 100 n) = 100 := by
        rw [min_eq_left h1, max_eq_right (by norm_num)]
      rw [this]; field_simp
    · rw [if_neg (not_le.mpr h1)]
      have : max 0 (min 100 n) = n := by
        rw [min_eq_right (le_of_lt h1), max_eq_right (le_of_lt h0)]
      rw [this]

/-- Unrolled description of the upload loop: pass j contributes its own
outcome and trace, independently of every other pass. -/
lemma upload_loop_spec (env : UploadEnv) (imgs : List String) (i : Nat) :
    upload_loop env i imgs
      = ((List.range imgs.length).filterMap (fun j => (process_pass env (i + j)).1),
         (List.range imgs.length).flatMap (fun j => (process_pass env (i + j)).2)) := by
  induction imgs generalizing i with
  | nil => simp [upload_loop]
  | cons hd tl ih =>
    have hfun1 : (fun j => (process_pass env (i + 1 + j)).1)
        = fun j => (process_pass env (i + (j + 1))).1 := by
      funext j
      have : i + 1 + j = i + (j + 1) := by omega
      rw [this]
    have hfun2 : (fun j => (process_pass env (i + 1 + j)).2)
        = fun j => (process_pass env (i + (j + 1))).2 := by
      funext j
      have : i + 1 + j = i + (j + 1) := by omega
      rw [this]
    rw [upload_loop, ih (i + 1)]
    simp only [hfun1, hfun2, List.length_cons, List.range_succ_eq_map,
      List.filterMap_cons, List.flatMap_cons, List.filterMap_map, List.flatMap_map,
      Function.comp, Nat.succ_eq_add_one, Nat.add_zero]
    rcases hp : (process_pass env i).1 with _ | url <;> simp [hp] <;>
      · apply List.filterMap_congr
        intro j _
        simp [Function.comp, Nat.succ_eq_add_one]

/-- Facts about the 64 alphabet characters, by enumeration: decoding after
the alphabet-restoring replaces inverts the encoder character map, and no
encoded character is a '.' or (after the replaces) a padding '='. -/
lemma b64urlChar_facts : ∀ v : Fin 64,
    b64CharVal (urlCharToStd (b64urlChar v.val)) = some v.val ∧
    b64urlChar v.val ≠ '.' ∧
    urlCharToStd (b64urlChar v.val) ≠ '=' := by
  decide

/-- Every sextet produced from bytes is < 64. -/
lemma bytesToSextets_lt : ∀ (bs : List Nat), (∀ b ∈ bs, b < 256) →
    ∀ v ∈ bytesToSextets bs, v < 64
  | [], _, v, hv => by simp [bytesToSextets] at hv
  | [b0], h, v, hv => by
    have hb0 : b0 < 256 := h b0 (by simp)
    simp [bytesToSextets] at hv
    rcases hv with h1 | h1 <;> omega
  | [b0, b1], h, v, hv => by
    have hb0 : b0 < 256 := h b0 (by simp)
    have hb1 : b1 < 256 := h b1 (by simp)
    simp [bytesToSextets] at hv
    rcases hv with h1 | h1 | h1 <;> omega
  | b0 :: b1 :: b2 :: rest, h, v, hv => by
    have hb0 : b0 < 256 := h b0 (by simp)
    have hb1 : b1 < 256 := h b1 (by simp)
    have hb2 : b2 < 256 := h b2 (by simp)
    rw [bytesToSextets] at hv
    simp at hv
    rcases hv with h1 | h1 | h1 | h1 | h1
    · omega
    · omega
    · omega
    · omega
    · exact bytesToSextets_lt rest
        (fun b hb => h b (List.mem_cons_of_mem _ (List.mem_cons_of_mem _
          (List.mem_cons_of_mem _ hb)))) v h1

/-- Decoding the sextets of a byte sequence recovers the bytes. -/
lemma sextetsToBytes_roundtrip : ∀ (bs : List Nat), (∀ b ∈ bs, b < 256) →
    sextetsToBytes (bytesToSextets bs) = some bs
  | [], _ => rfl
  | [b0], _ => by
    simp [bytesToSextets, sextetsToBytes]
    omega
  | [b0, b1], h => by
    have hb1 : b1 < 256 := h b1 (by simp)
    simp [bytesToSextets, sextetsToBytes]
    constructor <;> omega
  | b0 :: b1 :: b2 :: rest, h => by
    have hb1 : b1 < 256 := h b1 (by simp)
    have hb2 : b2 < 256 := h b2 (by simp)
    have ih := sextetsToBytes_roundtrip rest
      (fun b hb => h b (List.mem_cons_of_mem _ (List.mem_cons_of_mem _
        (List.mem_cons_of_mem _ hb))))
    rw [bytesToSextets, sextetsToBytes, ih]
    simp
    refine ⟨by omega, by omega, by omega⟩

/-- The encoded segment contains no '.' (so token.split(".") keeps it
whole). -/
lemma b64urlEncode_no_dot (bs : List Nat) (h : ∀ b ∈ bs, b < 256) :
    '.' ∉ b64urlEncode bs := by
  intro hc
  rw [b64urlEncode, List.mem_map] at hc
  obtain ⟨v, hv, heq⟩ := hc
  exact (b64urlChar_facts ⟨v, bytesToSextets_lt bs h v hv⟩).2.1 heq

/-- splitOnDot never returns an empty list of segments. -/
lemma splitOnDot_ne_nil (cs : List Char) : splitOnDot cs ≠ [] := by
  cases cs with
  | nil => simp [splitOnDot]
  | cons c rest =>
    rw [splitOnDot]
    split
    · simp
    · split <;> simp

/-- Splitting a dot-free prefix followed by '.' peels off that prefix. -/
lemma splitOnDot_append (h rest : List Char) (hh : '.' ∉ h) :
    splitOnDot (h ++ '.' :: rest) = h :: splitOnDot rest := by
  induction h with
  | nil => simp [splitOnDot]
  | cons c cs ih =>
    have hc : c ≠ '.' := by intro he; exact hh (by simp [he])
    have hcs : '.' ∉ cs := by intro he; exact hh (by simp [he])
    rw [List.cons_append, splitOnDot, if_neg hc, ih hcs]

/-- takeWhile keeps a fully satisfying prefix. -/
lemma takeWhile_append_of_all (p : Char → Bool) (l l2 : List Char)
    (h : ∀ c ∈ l, p c = true) :
    List.takeWhile p (l ++ l2) = l ++ List.takeWhile p l2 := by
  induction l with
  | nil => simp
  | cons c cs ih =>
    simp only [List.cons_append, List.takeWhile_cons]
    rw [h c (by simp)]
    simp [ih (fun d hd => h d (by simp [hd]))]

/-- filterMap with the decoding character map inverts the encoding map. -/
lemma filterMap_b64CharVal_encode : ∀ (l : List Nat), (∀ v ∈ l, v < 64) →
    List.filterMap b64CharVal (l.map (fun v => urlCharToStd (b64urlChar v))) = l
  | [], _ => rfl
  | v :: vs, h => by
    rw [List.map_cons, List.filterMap_cons,
      (b64urlChar_facts ⟨v, h v (by simp)⟩).1,
      filterMap_b64CharVal_encode vs (fun w hw => h w (by simp [hw]))]

/-- takeWhile for non-padding stops immediately at the padding run. -/
lemma takeWhile_replicate_pad (k : Nat) :
    List.takeWhile (fun c => decide (c ≠ '=')) (List.replicate k '=') = [] := by
  cases k with
  | zero => rfl
  | succ n => simp [List.replicate_succ, List.takeWhile_cons]

/-- C2: the slider-normalization function np_clamp is a defensive linear
interpolation: for targets a < b it sends 0 to a, 100 to b, 50 to the
midpoint, is monotone non-decreasing on [0,100], and inputs outside [0,100]
are first clamped to the nearest domain endpoint. -/
theorem np_clamp_spec (a b : ℚ) (hab : a < b) :
    np_clamp 0 a b = a ∧
    np_clamp 100 a b = b ∧
    np_clamp 50 a b = (a + b) / 2 ∧
    (∀ x y : ℚ, 0 ≤ x → x ≤ y → y ≤ 100 → np_clamp x a b ≤ np_clamp y a b) ∧
    (∀ x : ℚ, x < 0 → np_clamp x a b = np_clamp 0 a b) ∧
    (∀ x : ℚ, 100 < x → np_clamp x a b = np_clamp 100 a b) := by
  refine ⟨?_, ?_, ?_, ?_, ?_, ?_⟩
  · simp [np_clamp]
  · norm_num [np_clamp]
  · norm_num [np_clamp]; ring
  · intro x y hx hxy hy
    rw [np_clamp_eq, np_clamp_eq]
    have hmx : max 0 (min 100 x) = x := by
      rw [min_eq_right (le_trans hxy hy), max_eq_right hx]
    have hmy : max 0 (min 100 y) = y := by
      rw [min_eq_right hy, max_eq_right (le_trans hx hxy)]
    rw [hmx, hmy]
    have hba : (0 : ℚ) ≤ b - a := by linarith
    have : x * (b - a) ≤ y * (b - a) := by nlinarith
    linarith
  · intro x hx
    rw [np_clamp_eq, np_clamp_eq]
    have h1 : max 0 (min 100 x) = 0 := by
      rw [max_eq_left]
      exact le_trans (min_le_right _ _) (le_of_lt hx)
    have h2 : max 0 (min 100 (0 : ℚ)) = 0 := by norm_num
    rw [h1, h2]
  · intro x hx
    rw [np_clamp_eq, np_clamp_eq]
    have h1 : max 0 (min 100 x) = 100 := by
      rw [min_eq_left (le_of_lt hx), max_eq_right (by norm_num)]
    have h2 : max 0 (min 100 (100 : ℚ)) = 100 := by norm_num
    rw [h1, h2]

/-- Witness for np_clamp_spec at the concrete targets a = 0, b = 1. -/
theorem np_clamp_spec_witness :
    (0 : ℚ) < 1 ∧
    (np_clamp 0 0 1 = 0 ∧
     np_clamp 100 0 1 = 1 ∧
     np_clamp 50 0 1 = (0 + 1) / 2 ∧
     (∀ x y : ℚ, 0 ≤ x → x ≤ y → y ≤ 100 → np_clamp x 0 1 ≤ np_clamp y 0 1) ∧
     (∀ x : ℚ, x < 0 → np_clamp x 0 1 = np_clamp 0 0 1) ∧
     (∀ x : ℚ, 100 < x → np_clamp x 0 1 = np_clamp 100 0 1)) :=
  ⟨by norm_num, np_clamp_spec 0 1 (by norm_num)⟩

/-- C3 counterexample: the claim that every mapped id is distinct from the
fallback id fails.  The table maps the key built from (0,0,0) to id 0, and
the fallback return for an absent combination (e.g. (2,0,0)) is the same
id 0: the mapped id of (RETEXTURE, STABLE, PHOTOREAL) coincides with the
fallback. -/
theorem get_workflow_id_fallback_collision :
    ("0_0_0", 0) ∈ workflow_ids ∧
    workflow_ids.lookup (workflowKey 2 0 0) = none ∧
    get_workflow_id 2 0 0 = 0 ∧
    get_workflow_id 0 0 0 = get_workflow_id 2 0 0 ∧
    ¬ (∀ e ∈ workflow_ids, e.2 ≠ get_workflow_id 2 0 0) := by
  decide

/-- C3 (amended): get_workflow_id is a pure function of the three ordinals;
the table has exactly 12 entries; absent combinations return the fallback
id 0; all 12 mapped ids are reachable and pairwise distinct; and every
mapped id except the one of key "0_0_0" (whose id is 0, equal to the
fallback) is distinct from the fallback id. -/
theorem get_workflow_id_spec :
    workflow_ids.length = 12 ∧
    (∀ w b s w' b' s' : Nat, w = w' → b = b' → s = s' →
      get_workflow_id w b s = get_workflow_id w' b' s') ∧
    (∀ w b s : Nat, workflow_ids.lookup (workflowKey w b s) = none →
      get_workflow_id w b s = 0) ∧
    (∀ e ∈ workflow_ids, ∃ w ∈ List.range 2, ∃ b ∈ List.range 2,
      ∃ s ∈ List.range 3, get_workflow_id w b s = e.2) ∧
    (workflow_ids.map Prod.snd).Nodup ∧
    (∀ e ∈ workflow_ids, e.1 = "0_0_0" ∨ e.2 ≠ 0) := by
  refine ⟨by decide, ?_, ?_, by decide, by decide, by decide⟩
  · intro w b s w' b' s' hw hb hs
    rw [hw, hb, hs]
  · intro w b s h
    unfold get_workflow_id
    rw [h]

/-- C1: for the retexture submission scenario (workflow RETEXTURE, base
model STABLE, style PHOTOREAL, structure_strength = 50) with non-empty,
utf-8-decodable buffers, run_workflow posts a generative-retexture request
whose body has workflow_id = 0, structure_strength_depth = 0.8,
structure_strength_outline = 0.2, and width = height = 768. -/
theorem run_workflow_retexture_scenario
    (utf8Decode : List Nat → Option String) (client : ComfyDeployClient)
    (rs : RetextureRenderSettings) (sts : StyleTransferRenderSettings)
    (mode : Int)
    (hm : client.mask ≠ []) (hd : client.depth ≠ []) (ho : client.outline ≠ [])
    (fm fd fo : String)
    (dm : utf8Decode client.mask = some fm)
    (dd : utf8Decode client.depth = some fd)
    (dout : utf8Decode client.outline = some fo)
    (hs : rs.structure_strength = 50) :
    ∃ inp files,
      run_workflow utf8Decode client ⟨"RETEXTURE", "STABLE", "PHOTOREAL", mode⟩ rs sts
        = .ok (some (.postRetexture inp files)) ∧
      inp.workflow_id = 0 ∧
      inp.structure_strength_depth = 8/10 ∧
      inp.structure_strength_outline = 2/10 ∧
      inp.width = 768 ∧
      inp.height = 768 := by
  refine ⟨{ is_blender_plugin := 1
            workflow_id := get_workflow_id 0 0 0
            width := 768
            height := 768
            scene_prompt := rs.prompt
            structure_strength_depth := np_clamp rs.structure_strength (6/10) 1
            structure_strength_outline := np_clamp rs.structure_strength (1/10) (3/10)
            mask_prompt_1 := substPlaceholder rs.mask1.mask_prompt
            mask_prompt_2 := substPlaceholder rs.mask2.mask_prompt
            mask_prompt_3 := substPlaceholder rs.mask3.mask_prompt
            mask_prompt_4 := substPlaceholder rs.mask4.mask_prompt
            mask_prompt_5 := substPlaceholder rs.mask5.mask_prompt
            mask_prompt_6 := substPlaceholder rs.mask6.mask_prompt
            mask_prompt_7 := substPlaceholder rs.mask7.mask_prompt },
          { mask := fm, depth := fd, outline := fo }, ?_,
          by show get_workflow_id 0 0 0 = 0; rfl,
          by show np_clamp rs.structure_strength (6/10) 1 = 8/10
             rw [hs]; norm_num [np_clamp],
          by show np_clamp rs.structure_strength (1/10) (3/10) = 2/10
             rw [hs]; norm_num [np_clamp],
          rfl, rfl⟩
  unfold run_workflow
  rw [if_pos ⟨hm, hd, ho⟩]
  simp only [workflow_dict, base_model_dict, style_dict, List.lookup]
  norm_num
  rw [dm, dd, dout]

/-- C10: if any of the client's mask, depth or outline buffers is empty,
run_workflow performs no POST and returns None, whichever workflow (in
particular a style-transfer job) was selected. -/
theorem run_workflow_empty_buffer_guard
    (utf8Decode : List Nat → Option String) (client : ComfyDeployClient)
    (gs : GlobalRenderSettings) (rs : RetextureRenderSettings)
    (sts : StyleTransferRenderSettings)
    (h : client.mask = [] ∨ client.depth = [] ∨ client.outline = []) :
    run_workflow utf8Decode client gs rs sts = .ok none := by
  unfold run_workflow
  rw [if_neg]
  intro ⟨h1, h2, h3⟩
  rcases h with h | h | h
  · exact h1 h
  · exact h2 h
  · exact h3 h

/-- Witness for run_workflow_retexture_scenario: a concrete client with
one-byte buffers, a decoder returning the empty string, and the scenario
settings. -/
theorem run_workflow_retexture_scenario_witness :
    ([104] : List Nat) ≠ [] ∧
    (∃ inp files,
      run_workflow (fun _ => some "") ⟨[104], [104], [104], [], []⟩
          ⟨"RETEXTURE", "STABLE", "PHOTOREAL", 0⟩
          ⟨"p", 50, ⟨"", ""⟩, ⟨"", ""⟩, ⟨"", ""⟩, ⟨"", ""⟩, ⟨"", ""⟩, ⟨"", ""⟩, ⟨"", ""⟩⟩
          ⟨"s", 0⟩
        = .ok (some (.postRetexture inp files)) ∧
      inp.workflow_id = 0 ∧
      inp.structure_strength_depth = 8/10 ∧
      inp.structure_strength_outline = 2/10 ∧
      inp.width = 768 ∧
      inp.height = 768) :=
  ⟨by decide,
   run_workflow_retexture_scenario (fun _ => some "") ⟨[104], [104], [104], [], []⟩
     ⟨"p", 50, ⟨"", ""⟩, ⟨"", ""⟩, ⟨"", ""⟩, ⟨"", ""⟩, ⟨"", ""⟩, ⟨"", ""⟩, ⟨"", ""⟩⟩
     ⟨"s", 0⟩ 0 (by decide) (by decide) (by decide) "" "" "" rfl rfl rfl rfl⟩

/-- Witness for run_workflow_empty_buffer_guard: an empty mask buffer on a
style-transfer job, all other buffers non-empty: no POST, result None. -/
theorem run_workflow_empty_buffer_guard_witness :
    (⟨[], [104], [104], [104], [104]⟩ : ComfyDeployClient).mask = [] ∧
    run_workflow (fun _ => some "") ⟨[], [104], [104], [104], [104]⟩
        ⟨"STYLETRANSFER", "STABLE", "PHOTOREAL", 0⟩
        ⟨"p", 50, ⟨"", ""⟩, ⟨"", ""⟩, ⟨"", ""⟩, ⟨"", ""⟩, ⟨"", ""⟩, ⟨"", ""⟩, ⟨"", ""⟩⟩
        ⟨"s", 50⟩
      = .ok none :=
  ⟨rfl, run_workflow_empty_buffer_guard _ _ _ _ _ (Or.inl rfl)⟩

/-- C5 counterexample: get_user_info performs no credential-format
validation.  For the empty api key (length 0, failing the claimed
non-empty/36-character check) it still issues the token network request:
the call trace is non-empty. -/
theorem get_user_info_empty_key_calls_network :
    ("" : String).length ≠ 36 ∧
    (get_user_info authTestEnv "").2 = [NetCall.get "A"] ∧
    (get_user_info authTestEnv "").2 ≠ [] := by
  decide

/-- C5 (amended): get_user_info validates nothing about the api key: for
every api key, of any length (including the empty string), whenever the
configuration secrets are present and truthy it issues the token request
as its first network call; the 36-character format check is performed only
by validate_api_key. -/
theorem get_user_info_no_format_check (env : AuthEnv) (api_key : String)
    (s : AuthSecrets) (hs : env.secrets = some s)
    (a u x : String) (ha : s.alias_url = some a) (hu : s.user_url = some u)
    (hx : s.x_api_key = some x)
    (ha' : a ≠ "") (hu' : u ≠ "") (hx' : x ≠ "") :
    ∃ rest, (get_user_info env api_key).2 = NetCall.get (a ++ api_key) :: rest := by
  unfold get_user_info
  rw [hs]
  dsimp only
  rw [ha, hu, hx]
  dsimp only
  rw [if_neg (by simp [ha', hu', hx'])]
  repeat' split
  all_goals exact ⟨_, rfl⟩

/-- Witness for get_user_info_no_format_check at the concrete environment
and the empty api key. -/
theorem get_user_info_no_format_check_witness :
    ∃ rest, (get_user_info authTestEnv "").2 = NetCall.get ("A" ++ "") :: rest :=
  get_user_info_no_format_check authTestEnv ""
    { alias_url := some "A", user_url := some "U", x_api_key := some "K" }
    rfl "A" "U" "K" rfl rfl rfl (by decide) (by decide) (by decide)

/-- C6: validate_api_key short-circuits to false with zero network calls
whenever the key length is not 36 (the empty string included), and for a
36-character key it delegates to get_user_info, returning true exactly when
that call succeeds and issuing exactly the calls that call issues. -/
theorem validate_api_key_spec (env : AuthEnv) (api_key : String) :
    (api_key.length ≠ 36 → validate_api_key env api_key = (false, [])) ∧
    (api_key.length = 36 →
      ((validate_api_key env api_key).1 = true ↔
        (get_user_info env api_key).1.isSome = true) ∧
      (validate_api_key env api_key).2 = (get_user_info env api_key).2) := by
  constructor
  · intro h
    unfold validate_api_key
    rw [if_pos (Or.inr h)]
  · intro h
    have hne : ¬(api_key = "" ∨ api_key.length ≠ 36) := by
      rintro (he | hl)
      · rw [he] at h; simp at h
      · exact hl h
    unfold validate_api_key
    rw [if_neg hne]
    exact ⟨Iff.rfl, rfl⟩

/-- Witness for validate_api_key_spec: the empty key yields (false, []) and
a 36-character key delegates to get_user_info. -/
theorem validate_api_key_spec_witness :
    (("" : String).length ≠ 36 → validate_api_key authTestEnv "" = (false, [])) ∧
    (("000000000000000000000000000000000000" : String).length = 36 →
      ((validate_api_key authTestEnv "000000000000000000000000000000000000").1 = true ↔
        (get_user_info authTestEnv "000000000000000000000000000000000000").1.isSome = true) ∧
      (validate_api_key authTestEnv "000000000000000000000000000000000000").2
        = (get_user_info authTestEnv "000000000000000000000000000000000000").2) :=
  ⟨fun h => (validate_api_key_spec authTestEnv "").1 h,
   fun h => (validate_api_key_spec authTestEnv
     "000000000000000000000000000000000000").2 h⟩

/-- C7: with a selection made and the token exchange succeeding,
upload_render_passes is best-effort per item: the outcome of pass j depends
only on that pass's three requests; failing passes are omitted from the
returned url list while every pass is still processed (the trace contains
every pass's calls); the all-uploads-failed error is raised exactly when no
pass succeeded. -/
theorem upload_render_passes_best_effort (env : UploadEnv) (image_data : List String)
    (hteam : env.selected_team ≠ "select") (hwf : env.selected_workflow ≠ "select")
    (tok : String) (htok : env.tokenResult = some tok) :
    ((upload_render_passes env image_data).1 = .error .allUploadsFailed ↔
      (List.range image_data.length).filterMap (fun j => (process_pass env j).1) = []) ∧
    ((List.range image_data.length).filterMap (fun j => (process_pass env j).1) ≠ [] →
      (upload_render_passes env image_data).1
        = .ok ((List.range image_data.length).filterMap (fun j => (process_pass env j).1))) ∧
    (upload_render_passes env image_data).2
      = .tokenRequest ::
          (List.range image_data.length).flatMap (fun j => (process_pass env j).2) := by
  unfold upload_render_passes
  rw [if_neg (by rintro (h | h); exacts [hteam h, hwf h]), htok]
  dsimp only
  rw [upload_loop_spec]
  simp only [Nat.zero_add]
  split
  case isTrue h =>
    exact ⟨⟨fun _ => h, fun _ => rfl⟩, fun hne => absurd h hne, rfl⟩
  case isFalse h =>
    refine ⟨⟨fun hc => ?_, fun hnil => absurd hnil h⟩, fun _ => rfl, rfl⟩
    exact absurd hc (by simp)

/-- Witness for upload_render_passes_best_effort: three passes with pass 2
failing yield exactly the download URLs of passes 1 and 3, in order, and no
exception. -/
theorem upload_render_passes_best_effort_witness :
    (upload_render_passes uploadTestEnv ["a", "b", "c"]).1
      = .ok ["down0", "down2"] := by
  have h := upload_render_passes_best_effort uploadTestEnv ["a", "b", "c"]
    (by decide) (by decide) "tok" rfl
  rw [h.2.1 (by decide)]
  exact congrArg Except.ok (by decide)

/-- C8: when the team or workflow parameter still holds the "select"
sentinel, upload_render_passes raises the selection-required error with an
empty trace: no token request, no upload-URL request, no PUT. -/
theorem upload_selection_guard (env : UploadEnv) (image_data : List String)
    (h : env.selected_team = "select" ∨ env.selected_workflow = "select") :
    upload_render_passes env image_data = (.error .selectionRequired, []) := by
  unfold upload_render_passes
  rw [if_pos h]

/-- Witness for upload_selection_guard with the team left unselected. -/
theorem upload_selection_guard_witness :
    (({ uploadTestEnv with selected_team := "select" } : UploadEnv).selected_team
      = "select" ∨
     ({ uploadTestEnv with selected_team := "select" } : UploadEnv).selected_workflow
      = "select") ∧
    upload_render_passes { uploadTestEnv with selected_team := "select" } ["a"]
      = (.error .selectionRequired, []) :=
  ⟨Or.inl rfl,
   upload_selection_guard { uploadTestEnv with selected_team := "select" } ["a"]
     (Or.inl rfl)⟩

/-- C9: the claim that the listener returns the nested url of the first
success message is the intent, but the code cannot produce it: on the
scenario sequence — a malformed message (skipped), a pending message
(ignored), then the well-formed success message — the success branch
subscripts the bound method data.get, raising TypeError, which the outer
handler turns into a None return.  The listener therefore yields no result
instead of "https://x/y.png". -/
theorem websocket_success_message_yields_none :
    success_branch [("status", PyVal.str "success"),
        ("data", PyVal.dict [("outputs", PyVal.list [
          PyVal.dict [("data", PyVal.dict [("images", PyVal.list [
            PyVal.dict [("url", PyVal.str "https://x/y.png")]])])]])])]
      = .error .typeError ∧
    websocket_message [none, some (.dict [("status", .str "pending")]), some successMsg]
      = none ∧
    websocket_message [none, some (.dict [("status", .str "pending")]), some successMsg]
      ≠ some (.str "https://x/y.png") := by
  have h2 : websocket_message
      [none, some (.dict [("status", .str "pending")]), some successMsg] = none := rfl
  refine ⟨rfl, h2, ?_⟩
  rw [h2]
  exact fun h => Option.noConfusion h

/-- C4: decoding round trip of the JWT payload decoder.  For every payload
byte sequence (in particular the utf-8 serialization of a JSON object such
as the one with field username set to alice), applying decode_jwt's
pipeline — split on '.', take the middle segment, restore the standard
base64 alphabet, re-pad, base64-decode — to a token whose middle segment is
the unpadded URL-safe base64 encoding of that payload recovers exactly the
original bytes; utf-8 decoding and json.loads of equal bytes then yield the
original JSON value unchanged. -/
theorem decode_jwt_roundtrip (header sig : List Char) (hh : '.' ∉ header)
    (bs : List Nat) (hbs : ∀ b ∈ bs, b < 256) :
    decode_jwt_bytes (header ++ '.' :: (b64urlEncode bs ++ '.' :: sig)) = .ok bs := by
  have hmap : List.map urlCharToStd (b64urlEncode bs)
      = (bytesToSextets bs).map (fun v => urlCharToStd (b64urlChar v)) := by
    rw [b64urlEncode, List.map_map]
    rfl
  have hall : ∀ c ∈ List.map urlCharToStd (b64urlEncode bs),
      (fun c => decide (c ≠ '=')) c = true := by
    intro c hc
    rw [hmap, List.mem_map] at hc
    obtain ⟨v, hv, heq⟩ := hc
    subst heq
    simpa using (b64urlChar_facts ⟨v, bytesToSextets_lt bs hbs v hv⟩).2.2
  have hdec : b64decode (List.map urlCharToStd (b64urlEncode bs)
      ++ List.replicate (4 - (List.map urlCharToStd (b64urlEncode bs)).length % 4) '=')
      = some bs := by
    unfold b64decode
    rw [takeWhile_append_of_all _ _ _ hall, takeWhile_replicate_pad, List.append_nil,
      hmap, filterMap_b64CharVal_encode _ (bytesToSextets_lt bs hbs),
      sextetsToBytes_roundtrip bs hbs]
  unfold decode_jwt_bytes
  rw [splitOnDot_append header _ hh,
    splitOnDot_append (b64urlEncode bs) sig (b64urlEncode_no_dot bs hbs)]
  simp only [List.getElem?_cons_succ, List.getElem?_cons_zero]
  rw [hdec]

/-- Witness for decode_jwt_roundtrip on a token carrying the alice payload
between a one-character header and signature. -/
theorem decode_jwt_roundtrip_witness :
    ('.' ∉ "h".data) ∧ (∀ b ∈ aliceJsonBytes, b < 256) ∧
    decode_jwt_bytes ("h".data ++ '.' :: (b64urlEncode aliceJsonBytes ++ '.' :: "s".data))
      = .ok aliceJsonBytes :=
  ⟨by decide, by decide,
   decode_jwt_roundtrip "h".data "s".data (by decide) aliceJsonBytes (by decide)⟩

end Playbook
